import Mathlib

/-!
Verification of the Collinson Travel Planning Application core
(weather aggregation, activity scoring/ranking, coordinate parsing,
city search) against its natural-language specification.

The TypeScript sources are shallowly embedded:
- JS numbers carrying weather data are modelled as rationals (`ℚ`);
  where the code can produce NaN or an infinity (division by zero,
  `parseFloat`), the result type `JsNum` makes those values explicit.
- Activity scores are sums of integer rule points, modelled as `Nat`.
- Thrown errors are modelled with `Except`.
- `Array.prototype.sort` with comparator `(a, b) => b.score - a.score`
  is stable (ES2019); it is modelled by `List.insertionSort` with the
  relation `b.score ≤ a.score`, which is a stable sort.
-/

namespace TravelApp

/-- Model of a JS `number` result where NaN or an infinity can arise.
Ordinary finite values are `num q`. -/
inductive JsNum where
  | nan
  | posInf
  | negInf
  | num (q : ℚ)
deriving DecidableEq, Repr

namespace JsNum

/-- JS `isNaN` on a `JsNum`. -/
def isNaN : JsNum → Bool
  | .nan => true
  | _ => false

/-- JS `<` against a finite bound: NaN comparisons are false. -/
def ltB (x : JsNum) (b : ℚ) : Bool :=
  match x with
  | .nan => false
  | .posInf => false
  | .negInf => true
  | .num q => decide (q < b)

/-- JS `>` against a finite bound: NaN comparisons are false. -/
def gtB (x : JsNum) (b : ℚ) : Bool :=
  match x with
  | .nan => false
  | .posInf => true
  | .negInf => false
  | .num q => decide (b < q)

end JsNum

/-- JS division `a / b` on finite operands: division by zero gives
NaN (for `0 / 0`) or a signed infinity, exactly as in IEEE/JS. -/
def jsDiv (a b : ℚ) : JsNum :=
  if b = 0 then
    if a = 0 then .nan
    else if 0 < a then .posInf
    else .negInf
  else .num (a / b)

/-! ## Data model (weather.types.ts / activity.types.ts) -/

/-- `DailyForecast` from weather.types.ts: one transformed forecast day. -/
structure DailyForecast where
  date : String
  temperatureMax : ℚ
  temperatureMin : ℚ
  precipitation : ℚ
  windSpeedMax : ℚ
deriving DecidableEq, Repr

/-- `WeatherData` from activity.types.ts: the averaged weather summary
consumed by the ranker. -/
structure WeatherData where
  temperatureMax : ℚ
  temperatureMin : ℚ
  precipitation : ℚ
  windSpeedMax : ℚ
deriving DecidableEq, Repr

/-- `ActivityType` from activity.types.ts: closed enumeration. -/
inductive ActivityType where
  | SKIING
  | SURFING
  | INDOOR_SIGHTSEEING
  | OUTDOOR_SIGHTSEEING
deriving DecidableEq, Repr

/-- Position of an activity in the fixed declaration order of the
`activities` array built by `rankActivities`
(SURFING, SKIING, OUTDOOR_SIGHTSEEING, INDOOR_SIGHTSEEING). -/
def declIdx : ActivityType → Nat
  | .SURFING => 0
  | .SKIING => 1
  | .OUTDOOR_SIGHTSEEING => 2
  | .INDOOR_SIGHTSEEING => 3

/-- `ActivityScore` from activity.types.ts. -/
structure ActivityScore where
  activity : ActivityType
  score : Nat
  reason : String
deriving DecidableEq, Repr

/-! ## ActivityRanker (src/utils/activityRanker.ts)

Each private score helper accumulates `score` and `reasons` through a
sequence of independent `if` statements, then substitutes a fixed
default reason list when no condition fired.  The accumulation is
rendered as a chain of intermediate states `r1`, `r2`, ... mirroring
the mutation order of the source. -/

/-- `ActivityRanker.scoreSurfing`: wind `>= 25` gives +30, precipitation
`< 2` gives +20, temperatureMax `> 18` gives +20. -/
def scoreSurfing (w : WeatherData) : Nat × List String :=
  let r1 : Nat × List String :=
    if 25 ≤ w.windSpeedMax then (0 + 30, [] ++ ["Strong wind creates rideable swells"])
    else (0, [])
  let r2 : Nat × List String :=
    if w.precipitation < 2 then (r1.1 + 20, r1.2 ++ ["Good visibility, minimal rain"])
    else r1
  let r3 : Nat × List String :=
    if 18 < w.temperatureMax then (r2.1 + 20, r2.2 ++ ["Warm enough for extended water time"])
    else r2
  (r3.1, if 0 < r3.2.length then r3.2 else ["Conditions unfavorable: low wind speed"])

/-- `ActivityRanker.scoreSkiing`: temperatureMax `< 5` gives +40,
precipitation `> 2` gives +20. -/
def scoreSkiing (w : WeatherData) : Nat × List String :=
  let r1 : Nat × List String :=
    if w.temperatureMax < 5 then (0 + 40, [] ++ ["Below freezing - excellent snow conditions"])
    else (0, [])
  let r2 : Nat × List String :=
    if 2 < w.precipitation then (r1.1 + 20, r1.2 ++ ["Fresh snow accumulation expected"])
    else r1
  (r2.1, if 0 < r2.2.length then r2.2 else ["Too warm for quality snow conditions"])

/-- `ActivityRanker.scoreOutdoorSightseeing`: precipitation `< 1` gives
+40, temperatureMax in `[18, 28]` gives +30. -/
def scoreOutdoorSightseeing (w : WeatherData) : Nat × List String :=
  let r1 : Nat × List String :=
    if w.precipitation < 1 then (0 + 40, [] ++ ["Clear, dry skies perfect for sightseeing"])
    else (0, [])
  let r2 : Nat × List String :=
    if 18 ≤ w.temperatureMax ∧ w.temperatureMax ≤ 28 then
      (r1.1 + 30, r1.2 ++ ["Comfortable temperature for walking tours"])
    else r1
  (r2.1, if 0 < r2.2.length then r2.2 else ["Weather conditions limit outdoor touring"])

/-- `ActivityRanker.scoreIndoorSightseeing`: precipitation `> 4` gives
+40, windSpeedMax `> 30` gives +20. -/
def scoreIndoorSightseeing (w : WeatherData) : Nat × List String :=
  let r1 : Nat × List String :=
    if 4 < w.precipitation then (0 + 40, [] ++ ["Heavy rain makes indoor activities ideal"])
    else (0, [])
  let r2 : Nat × List String :=
    if 30 < w.windSpeedMax then (r1.1 + 20, r1.2 ++ ["Strong wind suggests indoor entertainment"])
    else r1
  (r2.1, if 0 < r2.2.length then r2.2 else ["Outdoor conditions are favorable"])

/-- The comparator relation of `activities.sort((a, b) => b.score - a.score)`:
`a` may precede `b` exactly when `b.score ≤ a.score`. -/
def rankRel (a b : ActivityScore) : Prop := b.score ≤ a.score

instance : DecidableRel rankRel := fun a b => inferInstanceAs (Decidable (b.score ≤ a.score))

/-- `ActivityRanker.rankActivities`: build the four entries in declaration
order, join each reasons list with " and ", and stably sort by score
descending. -/
def rankActivities (w : WeatherData) : List ActivityScore :=
  let surfing := scoreSurfing w
  let skiing := scoreSkiing w
  let outdoorSightseeing := scoreOutdoorSightseeing w
  let indoorSightseeing := scoreIndoorSightseeing w
  let activities : List ActivityScore :=
    [ { activity := .SURFING, score := surfing.1,
        reason := String.intercalate " and " surfing.2 },
      { activity := .SKIING, score := skiing.1,
        reason := String.intercalate " and " skiing.2 },
      { activity := .OUTDOOR_SIGHTSEEING, score := outdoorSightseeing.1,
        reason := String.intercalate " and " outdoorSightseeing.2 },
      { activity := .INDOOR_SIGHTSEEING, score := indoorSightseeing.1,
        reason := String.intercalate " and " indoorSightseeing.2 } ]
  List.insertionSort rankRel activities

/-- `ActivityRanker.getRecommendedActivity`: `ranked[0]!.activity`
(the ranked list is never empty; `headD` supplies an unreachable default). -/
def getRecommendedActivity (w : WeatherData) : ActivityType :=
  ((rankActivities w).headD ⟨.SURFING, 0, ""⟩).activity

/-- `ActivityService.rankActivitiesForCity`, after the weather has been
fetched and averaged: rank and pair with `scores[0]!.activity`. -/
def rankActivitiesForCity (weatherData : WeatherData) :
    List ActivityScore × ActivityType :=
  let scores := rankActivities weatherData
  let recommended := ((scores).headD ⟨.SURFING, 0, ""⟩).activity
  (scores, recommended)

/-! ## WeatherService.getAverageForecast (weather.service.ts)

The source averages each field with
`forecast.reduce((sum, day) => sum + day.field, 0) / forecast.length`
and performs no emptiness check: on an empty forecast each field is
the JS value `0 / 0 = NaN`. -/

/-- The record returned by `WeatherService.getAverageForecast`.  Fields
are `JsNum` because the JS division can produce NaN. -/
structure AverageForecast where
  temperatureMax : JsNum
  temperatureMin : JsNum
  precipitation : JsNum
  windSpeedMax : JsNum
deriving DecidableEq, Repr

/-- `WeatherService.getAverageForecast`, applied to the already-fetched
forecast list (the network fetch is outside the core). -/
def getAverageForecast (forecast : List DailyForecast) : AverageForecast :=
  let avgTemp := jsDiv (forecast.foldl (fun sum day => sum + day.temperatureMax) 0) forecast.length
  let avgTempMin := jsDiv (forecast.foldl (fun sum day => sum + day.temperatureMin) 0) forecast.length
  let avgPrecip := jsDiv (forecast.foldl (fun sum day => sum + day.precipitation) 0) forecast.length
  let avgWind := jsDiv (forecast.foldl (fun sum day => sum + day.windSpeedMax) 0) forecast.length
  { temperatureMax := avgTemp
    temperatureMin := avgTempMin
    precipitation := avgPrecip
    windSpeedMax := avgWind }

/-! ## parseFloat model and parseCoordinates (graphql/resolvers.ts) -/

/-- JS whitespace recognised by `parseFloat` and `String.prototype.trim`
(ASCII subset plus NBSP; the repository never feeds other Unicode
spaces to these functions). -/
def isJsWhitespace (c : Char) : Bool :=
  c = ' ' || c = '\t' || c = '\n' || c = '\r' ||
  c = Char.ofNat 11 || c = Char.ofNat 12 || c = Char.ofNat 160

/-- Value of a digit string (most significant first). -/
def digitsToNat (ds : List Char) : Nat :=
  ds.foldl (fun a c => 10 * a + (c.toNat - 48)) 0

/-- Exponent part of a decimal literal: optional sign then digits; an
`e` not followed by digits contributes exponent 0 (JS `parseFloat`
takes the longest valid literal prefix, so `"1e"` parses as 1). -/
def parseExpPart (r : List Char) : ℤ :=
  let (sgn, r2) : ℤ × List Char :=
    match r with
    | '+' :: t => (1, t)
    | '-' :: t => (-1, t)
    | _ => (1, r)
  let ds := r2.takeWhile Char.isDigit
  if ds.isEmpty then 0 else sgn * digitsToNat ds

/-- Model of the JS builtin `parseFloat`: skip leading whitespace, read
an optional sign, then the longest prefix that is `Infinity` or a
decimal literal `digits [. digits] [e [sign] digits]`; if no such
prefix exists the result is NaN.  Trailing garbage is ignored. -/
def parseFloat (s : String) : JsNum :=
  let cs := s.data.dropWhile isJsWhitespace
  let (sign, cs2) : ℚ × List Char :=
    match cs with
    | '+' :: t => (1, t)
    | '-' :: t => (-1, t)
    | _ => (1, cs)
  if "Infinity".data.isPrefixOf cs2 then
    if sign = 1 then .posInf else .negInf
  else
    let ip := cs2.takeWhile Char.isDigit
    let rest1 := cs2.dropWhile Char.isDigit
    let (fp, rest2) : List Char × List Char :=
      match rest1 with
      | '.' :: t => (t.takeWhile Char.isDigit, t.dropWhile Char.isDigit)
      | _ => ([], rest1)
    if ip.isEmpty ∧ fp.isEmpty then .nan
    else
      let mantissa : ℚ := (digitsToNat ip : ℚ) + (digitsToNat fp : ℚ) / (10 : ℚ) ^ fp.length
      let exp : ℤ :=
        match rest2 with
        | 'e' :: t => parseExpPart t
        | 'E' :: t => parseExpPart t
        | _ => 0
      .num (sign * mantissa * (10 : ℚ) ^ exp)

/-- Split a character list at every occurrence of the separator: a
model of JS `String.prototype.split` with a one-character separator,
as `parseCoordinates` uses for the colon.  Structural recursion so
concrete inputs evaluate by reduction. -/
def splitChar (sep : Char) : List Char → List (List Char)
  | [] => [[]]
  | c :: cs =>
    match splitChar sep cs with
    | h :: t => if c = sep then [] :: h :: t else (c :: h) :: t
    | [] => [[c]]

/-- JS `s.split(sep)` for a one-character separator. -/
def jsSplit (s : String) (sep : Char) : List String :=
  (splitChar sep s.data).map fun cs => ⟨cs⟩

/-- The coordinate pair produced by `parseCoordinates`. -/
structure Coordinates where
  latitude : JsNum
  longitude : JsNum
deriving DecidableEq, Repr

/-- `parseCoordinates` from resolvers.ts: split on `:`, require exactly
two parts, `parseFloat` each, reject NaN and out-of-range values with
`InvalidCityIdError` (modelled as `Except.error` carrying the cityId). -/
def parseCoordinates (cityId : String) : Except String Coordinates :=
  match jsSplit cityId ':' with
  | [p0, p1] =>
    let latitude := parseFloat p0
    let longitude := parseFloat p1
    if latitude.isNaN || longitude.isNaN then .error cityId
    else if latitude.ltB (-90) || latitude.gtB 90 then .error cityId
    else if longitude.ltB (-180) || longitude.gtB 180 then .error cityId
    else .ok { latitude := latitude, longitude := longitude }
  | _ => .error cityId

/-! ## CityService.searchCities (modules/city/city.service.ts) -/

/-- Raw OpenMeteo geocoding result (city.types.ts). -/
structure CitySearchResult where
  id : ℤ
  name : String
  country : String
  latitude : ℚ
  longitude : ℚ
deriving DecidableEq, Repr

/-- Domain `City` type (city.types.ts). -/
structure City where
  id : String
  name : String
  country : String
  latitude : ℚ
  longitude : ℚ
deriving DecidableEq, Repr

/-- `CityNotFoundError` raised by `CityService`. -/
inductive CityServiceError where
  | cityNotFound (query : String)
deriving DecidableEq, Repr

/-- `CityService.transformResult`: numeric id rendered as a string,
essential fields copied. -/
def transformResult (result : CitySearchResult) : City :=
  { id := toString result.id
    name := result.name
    country := result.country
    latitude := result.latitude
    longitude := result.longitude }

/-- JS `String.prototype.trim` (whitespace stripped from both ends). -/
def jsTrim (s : String) : String :=
  ⟨((s.data.dropWhile isJsWhitespace).reverse.dropWhile isJsWhitespace).reverse⟩

/-- `CityService.searchCities`.  The external geocoding client is a
parameter mapping the query to its result list; the guard on an
empty/whitespace query runs before the client is consulted, which the
parameterisation makes provable (the result is client-independent
there). -/
def searchCities (client : String → List CitySearchResult) (query : String) :
    Except CityServiceError (List City) :=
  if query = "" ∨ (jsTrim query).length = 0 then .error (.cityNotFound "")
  else
    let results := client query
    if results.length = 0 then .error (.cityNotFound query)
    else .ok (results.map transformResult)

/-! ## Rule tables transcribed from the specification

Used to state the refinement claims about reason composition and
per-rule scores: each entry is (condition satisfied, points, reason
fragment), in rule-declaration order. -/

/-- Spec rule table for SURFING. -/
def surfingRules (w : WeatherData) : List (Bool × Nat × String) :=
  [ (decide (25 ≤ w.windSpeedMax), 30, "Strong wind creates rideable swells"),
    (decide (w.precipitation < 2), 20, "Good visibility, minimal rain"),
    (decide (18 < w.temperatureMax), 20, "Warm enough for extended water time") ]

/-- Spec rule table for SKIING. -/
def skiingRules (w : WeatherData) : List (Bool × Nat × String) :=
  [ (decide (w.temperatureMax < 5), 40, "Below freezing - excellent snow conditions"),
    (decide (2 < w.precipitation), 20, "Fresh snow accumulation expected") ]

/-- Spec rule table for OUTDOOR_SIGHTSEEING. -/
def outdoorRules (w : WeatherData) : List (Bool × Nat × String) :=
  [ (decide (w.precipitation < 1), 40, "Clear, dry skies perfect for sightseeing"),
    (decide (18 ≤ w.temperatureMax ∧ w.temperatureMax ≤ 28), 30,
      "Comfortable temperature for walking tours") ]

/-- Spec rule table for INDOOR_SIGHTSEEING. -/
def indoorRules (w : WeatherData) : List (Bool × Nat × String) :=
  [ (decide (4 < w.precipitation), 40, "Heavy rain makes indoor activities ideal"),
    (decide (30 < w.windSpeedMax), 20, "Strong wind suggests indoor entertainment") ]

/-- Reason fragments of the satisfied rules, in declaration order. -/
def satisfiedReasons (rules : List (Bool × Nat × String)) : List String :=
  (rules.filter (·.1)).map (·.2.2)

/-- Points of the satisfied rules. -/
def satisfiedPoints (rules : List (Bool × Nat × String)) : List Nat :=
  (rules.filter (·.1)).map (·.2.1)

/-- Maximum attainable score per activity: the sum of all its rule
points (from the spec's rule table). -/
def maxScore : ActivityType → Nat
  | .SURFING => 70
  | .SKIING => 60
  | .OUTDOOR_SIGHTSEEING => 70
  | .INDOOR_SIGHTSEEING => 60

/-! ## Boolean checkers used by the ranking claims -/

/-- Scores are weakly decreasing along the list. -/
def isSortedDesc : List ActivityScore → Bool
  | [] => true
  | [_] => true
  | a :: b :: t => (b.score ≤ a.score) && isSortedDesc (b :: t)

/-- For every pair of entries in list order, a score tie is broken by
the fixed declaration order of the activities. -/
def tieBreakOk : List ActivityScore → Bool
  | [] => true
  | a :: t =>
    t.all (fun b => a.score ≠ b.score || declIdx a.activity < declIdx b.activity) &&
    tieBreakOk t

/-! ## Helper lemmas about the scoring helpers -/

theorem scoreSurfing_le (w : WeatherData) : (scoreSurfing w).1 ≤ 70 := by
  by_cases h1 : 25 ≤ w.windSpeedMax <;> by_cases h2 : w.precipitation < 2 <;>
    by_cases h3 : 18 < w.temperatureMax <;>
      simp [scoreSurfing, h1, h2, h3]

theorem scoreSkiing_le (w : WeatherData) : (scoreSkiing w).1 ≤ 60 := by
  by_cases h1 : w.temperatureMax < 5 <;> by_cases h2 : 2 < w.precipitation <;>
    simp [scoreSkiing, h1, h2]

theorem scoreOutdoorSightseeing_le (w : WeatherData) :
    (scoreOutdoorSightseeing w).1 ≤ 70 := by
  by_cases h1 : w.precipitation < 1 <;>
    by_cases h2 : 18 ≤ w.temperatureMax ∧ w.temperatureMax ≤ 28 <;>
      simp [scoreOutdoorSightseeing, h1, h2]

theorem scoreIndoorSightseeing_le (w : WeatherData) :
    (scoreIndoorSightseeing w).1 ≤ 60 := by
  by_cases h1 : 4 < w.precipitation <;> by_cases h2 : 30 < w.windSpeedMax <;>
    simp [scoreIndoorSightseeing, h1, h2]

theorem scoreSurfing_reason_ne (w : WeatherData) :
    String.intercalate " and " (scoreSurfing w).2 ≠ "" := by
  by_cases h1 : 25 ≤ w.windSpeedMax <;> by_cases h2 : w.precipitation < 2 <;>
    by_cases h3 : 18 < w.temperatureMax <;>
      simp [scoreSurfing, h1, h2, h3] <;> decide

theorem scoreSkiing_reason_ne (w : WeatherData) :
    String.intercalate " and " (scoreSkiing w).2 ≠ "" := by
  by_cases h1 : w.temperatureMax < 5 <;> by_cases h2 : 2 < w.precipitation <;>
    simp [scoreSkiing, h1, h2] <;> decide

theorem scoreOutdoorSightseeing_reason_ne (w : WeatherData) :
    String.intercalate " and " (scoreOutdoorSightseeing w).2 ≠ "" := by
  by_cases h1 : w.precipitation < 1 <;>
    by_cases h2 : 18 ≤ w.temperatureMax ∧ w.temperatureMax ≤ 28 <;>
      simp [scoreOutdoorSightseeing, h1, h2] <;> decide

theorem scoreIndoorSightseeing_reason_ne (w : WeatherData) :
    String.intercalate " and " (scoreIndoorSightseeing w).2 ≠ "" := by
  by_cases h1 : 4 < w.precipitation <;> by_cases h2 : 30 < w.windSpeedMax <;>
    simp [scoreIndoorSightseeing, h1, h2] <;> decide

/-! ## Claim theorems -/

/-- C2: each activity's score is exactly the sum of the points of its
satisfied rule-table conditions (SURFING: +30 iff windSpeedMax ≥ 25,
+20 iff precipitation < 2, +20 iff temperatureMax > 18; SKIING: +40
iff temperatureMax < 5, +20 iff precipitation > 2;
OUTDOOR_SIGHTSEEING: +40 iff precipitation < 1, +30 iff
18 ≤ temperatureMax ≤ 28; INDOOR_SIGHTSEEING: +40 iff
precipitation > 4, +20 iff windSpeedMax > 30); the rules contribute
independently, with no early exit and no mutual exclusion. -/
theorem score_eq_sum_of_satisfied_rules (w : WeatherData) :
    (scoreSurfing w).1 =
      ((if 25 ≤ w.windSpeedMax then 30 else 0) +
       (if w.precipitation < 2 then 20 else 0) +
       (if 18 < w.temperatureMax then 20 else 0)) ∧
    (scoreSkiing w).1 =
      ((if w.temperatureMax < 5 then 40 else 0) +
       (if 2 < w.precipitation then 20 else 0)) ∧
    (scoreOutdoorSightseeing w).1 =
      ((if w.precipitation < 1 then 40 else 0) +
       (if 18 ≤ w.temperatureMax ∧ w.temperatureMax ≤ 28 then 30 else 0)) ∧
    (scoreIndoorSightseeing w).1 =
      ((if 4 < w.precipitation then 40 else 0) +
       (if 30 < w.windSpeedMax then 20 else 0)) := by
  refine ⟨?_, ?_, ?_, ?_⟩
  · by_cases h1 : 25 ≤ w.windSpeedMax <;> by_cases h2 : w.precipitation < 2 <;>
      by_cases h3 : 18 < w.temperatureMax <;>
        simp [scoreSurfing, h1, h2, h3]
  · by_cases h1 : w.temperatureMax < 5 <;> by_cases h2 : 2 < w.precipitation <;>
      simp [scoreSkiing, h1, h2]
  · by_cases h1 : w.precipitation < 1 <;>
      by_cases h2 : 18 ≤ w.temperatureMax ∧ w.temperatureMax ≤ 28 <;>
        simp [scoreOutdoorSightseeing, h1, h2]
  · by_cases h1 : 4 < w.precipitation <;> by_cases h2 : 30 < w.windSpeedMax <;>
      simp [scoreIndoorSightseeing, h1, h2]

/-- C5: for every activity the published reason string is the
concatenation, joined with " and " in rule-declaration order, of the
reason fragments of the satisfied conditions; when no condition is
satisfied the score is the empty sum 0 and the reason is that
activity's fixed non-empty default string. -/
theorem reason_is_join_of_satisfied_fragments (w : WeatherData) :
    (String.intercalate " and " (scoreSurfing w).2 =
      if (satisfiedReasons (surfingRules w)).isEmpty then
        "Conditions unfavorable: low wind speed"
      else String.intercalate " and " (satisfiedReasons (surfingRules w))) ∧
    (scoreSurfing w).1 = (satisfiedPoints (surfingRules w)).sum ∧
    (String.intercalate " and " (scoreSkiing w).2 =
      if (satisfiedReasons (skiingRules w)).isEmpty then
        "Too warm for quality snow conditions"
      else String.intercalate " and " (satisfiedReasons (skiingRules w))) ∧
    (scoreSkiing w).1 = (satisfiedPoints (skiingRules w)).sum ∧
    (String.intercalate " and " (scoreOutdoorSightseeing w).2 =
      if (satisfiedReasons (outdoorRules w)).isEmpty then
        "Weather conditions limit outdoor touring"
      else String.intercalate " and " (satisfiedReasons (outdoorRules w))) ∧
    (scoreOutdoorSightseeing w).1 = (satisfiedPoints (outdoorRules w)).sum ∧
    (String.intercalate " and " (scoreIndoorSightseeing w).2 =
      if (satisfiedReasons (indoorRules w)).isEmpty then
        "Outdoor conditions are favorable"
      else String.intercalate " and " (satisfiedReasons (indoorRules w))) ∧
    (scoreIndoorSightseeing w).1 = (satisfiedPoints (indoorRules w)).sum ∧
    "Conditions unfavorable: low wind speed" ≠ "" ∧
    "Too warm for quality snow conditions" ≠ "" ∧
    "Weather conditions limit outdoor touring" ≠ "" ∧
    "Outdoor conditions are favorable" ≠ "" := by
  refine ⟨?_, ?_, ?_, ?_, ?_, ?_, ?_, ?_, by decide, by decide, by decide, by decide⟩
  · by_cases h1 : 25 ≤ w.windSpeedMax <;> by_cases h2 : w.precipitation < 2 <;>
      by_cases h3 : 18 < w.temperatureMax <;>
        simp [scoreSurfing, surfingRules, satisfiedReasons, h1, h2, h3] <;> decide
  · by_cases h1 : 25 ≤ w.windSpeedMax <;> by_cases h2 : w.precipitation < 2 <;>
      by_cases h3 : 18 < w.temperatureMax <;>
        simp [scoreSurfing, surfingRules, satisfiedPoints, h1, h2, h3]
  · by_cases h1 : w.temperatureMax < 5 <;> by_cases h2 : 2 < w.precipitation <;>
      simp [scoreSkiing, skiingRules, satisfiedReasons, h1, h2] <;> decide
  · by_cases h1 : w.temperatureMax < 5 <;> by_cases h2 : 2 < w.precipitation <;>
      simp [scoreSkiing, skiingRules, satisfiedPoints, h1, h2]
  · by_cases h1 : w.precipitation < 1 <;>
      by_cases h2 : 18 ≤ w.temperatureMax ∧ w.temperatureMax ≤ 28 <;>
        simp [scoreOutdoorSightseeing, outdoorRules, satisfiedReasons, h1, h2] <;> decide
  · by_cases h1 : w.precipitation < 1 <;>
      by_cases h2 : 18 ≤ w.temperatureMax ∧ w.temperatureMax ≤ 28 <;>
        simp [scoreOutdoorSightseeing, outdoorRules, satisfiedPoints, h1, h2]
  · by_cases h1 : 4 < w.precipitation <;> by_cases h2 : 30 < w.windSpeedMax <;>
      simp [scoreIndoorSightseeing, indoorRules, satisfiedReasons, h1, h2] <;> decide
  · by_cases h1 : 4 < w.precipitation <;> by_cases h2 : 30 < w.windSpeedMax <;>
      simp [scoreIndoorSightseeing, indoorRules, satisfiedPoints, h1, h2]

/-- C6: every entry of the ranked list has a score in
[0, the activity's maximum] (SURFING 70, SKIING 60,
OUTDOOR_SIGHTSEEING 70, INDOOR_SIGHTSEEING 60) and a non-empty
reason string. -/
theorem score_bounds_and_reason_nonempty (w : WeatherData) :
    (rankActivities w).all
      (fun e => decide (0 ≤ e.score) && decide (e.score ≤ maxScore e.activity) &&
        !(e.reason == "")) = true := by
  rw [List.all_eq_true]
  intro e he
  simp only [rankActivities] at he
  rw [List.mem_insertionSort] at he
  simp only [List.mem_cons, List.not_mem_nil, or_false] at he
  rcases he with rfl | rfl | rfl | rfl <;>
    simp [maxScore, Nat.zero_le, scoreSurfing_le, scoreSkiing_le,
      scoreOutdoorSightseeing_le, scoreIndoorSightseeing_le,
      scoreSurfing_reason_ne, scoreSkiing_reason_ne,
      scoreOutdoorSightseeing_reason_ne, scoreIndoorSightseeing_reason_ne]

/-- C7: SURFING scoring is monotonic in wind past the threshold: with
temperatureMax, temperatureMin and precipitation fixed, if the first
summary has windSpeedMax ≥ 25 and the second has a strictly larger
windSpeedMax, the second SURFING score is ≥ the first. -/
theorem surfing_monotone_in_wind (w1 w2 : WeatherData)
    (htemp : w2.temperatureMax = w1.temperatureMax)
    (htmin : w2.temperatureMin = w1.temperatureMin)
    (hprec : w2.precipitation = w1.precipitation)
    (h25 : 25 ≤ w1.windSpeedMax)
    (hlt : w1.windSpeedMax < w2.windSpeedMax) :
    (scoreSurfing w1).1 ≤ (scoreSurfing w2).1 := by
  have h25b : 25 ≤ w2.windSpeedMax := le_trans h25 (le_of_lt hlt)
  by_cases h2 : w1.precipitation < 2 <;> by_cases h3 : 18 < w1.temperatureMax <;>
    simp [scoreSurfing, h25, h25b, htemp, hprec, h2, h3]

/-- Witness for C7 at two concrete summaries differing only in wind. -/
theorem surfing_monotone_in_wind_witness :
    (scoreSurfing ⟨20, 10, 1, 25⟩).1 ≤ (scoreSurfing ⟨20, 10, 1, 30⟩).1 :=
  surfing_monotone_in_wind ⟨20, 10, 1, 25⟩ ⟨20, 10, 1, 30⟩ rfl rfl rfl
    (by norm_num) (by norm_num)

/-! ## Stability of the ranking sort

`orderedInsert` with the comparator relation `rankRel` preserves the
combined guarantee "score descending, ties in declaration order",
provided the inserted element declares earlier than everything already
in the list — which is exactly the situation in `insertionSort`, which
inserts elements from the right of the original list. -/

theorem orderedInsert_sorted_stable (a : ActivityScore) (l : List ActivityScore)
    (hl : l.Pairwise (fun x y => y.score ≤ x.score ∧
      (x.score = y.score → declIdx x.activity < declIdx y.activity)))
    (ha : ∀ b ∈ l, declIdx a.activity < declIdx b.activity) :
    (l.orderedInsert rankRel a).Pairwise (fun x y => y.score ≤ x.score ∧
      (x.score = y.score → declIdx x.activity < declIdx y.activity)) := by
  induction l with
  | nil => simp
  | cons b t ih =>
    rw [List.orderedInsert]
    rcases List.pairwise_cons.1 hl with ⟨hb, ht⟩
    by_cases hr : rankRel a b
    · rw [if_pos hr]
      refine List.pairwise_cons.2 ⟨?_, hl⟩
      intro c hc
      rcases List.mem_cons.1 hc with rfl | hct
      · exact ⟨hr, fun _ => ha c (List.mem_cons_self _ _)⟩
      · exact ⟨le_trans (hb c hct).1 hr,
          fun _ => ha c (List.mem_cons_of_mem _ hct)⟩
    · rw [if_neg hr]
      have hab : a.score < b.score := lt_of_not_le hr
      refine List.pairwise_cons.2
        ⟨?_, ih ht (fun c hct => ha c (List.mem_cons_of_mem _ hct))⟩
      intro c hc
      rcases (List.mem_orderedInsert rankRel).1 hc with rfl | hct
      · exact ⟨le_of_lt hab, fun hEq => absurd hEq (by omega)⟩
      · exact hb c hct

theorem insertionSort_sorted_stable (l : List ActivityScore)
    (hl : l.Pairwise (fun x y => declIdx x.activity < declIdx y.activity)) :
    (List.insertionSort rankRel l).Pairwise (fun x y => y.score ≤ x.score ∧
      (x.score = y.score → declIdx x.activity < declIdx y.activity)) := by
  induction l with
  | nil => simp [List.insertionSort]
  | cons a t ih =>
    rw [List.insertionSort]
    rcases List.pairwise_cons.1 hl with ⟨ha, ht⟩
    exact orderedInsert_sorted_stable a _ (ih ht)
      (fun b hb => ha b ((List.mem_insertionSort rankRel).1 hb))

/-- C4: the ranked list is the four activity entries sorted by score
descending with ties broken by the fixed declaration order SURFING,
SKIING, OUTDOOR_SIGHTSEEING, INDOOR_SIGHTSEEING (stable sort over the
canonical order), and the recommended activity is always its first
element (both in `getRecommendedActivity` and in
`rankActivitiesForCity`). -/
theorem ranking_sorted_stable_recommended_first (w : WeatherData) :
    (rankActivities w).Pairwise (fun x y => y.score ≤ x.score ∧
      (x.score = y.score → declIdx x.activity < declIdx y.activity)) ∧
    ((rankActivities w).map (fun e => e.activity)).Perm
      [.SURFING, .SKIING, .OUTDOOR_SIGHTSEEING, .INDOOR_SIGHTSEEING] ∧
    (rankActivities w).length = 4 ∧
    getRecommendedActivity w = ((rankActivities w).headD ⟨.SURFING, 0, ""⟩).activity ∧
    rankActivitiesForCity w = (rankActivities w, getRecommendedActivity w) := by
  refine ⟨?_, ?_, ?_, rfl, rfl⟩
  · simp only [rankActivities]
    apply insertionSort_sorted_stable
    simp [List.pairwise_cons, declIdx]
  · simp only [rankActivities]
    exact (List.perm_insertionSort rankRel _).map (fun e => e.activity)
  · simp only [rankActivities]
    rw [List.length_insertionSort]
    rfl

/-! ## Aggregation claims -/

theorem foldl_add_eq (f : DailyForecast → ℚ) (l : List DailyForecast) (a : ℚ) :
    l.foldl (fun sum day => sum + f day) a = a + (l.map f).sum := by
  induction l generalizing a with
  | nil => simp
  | cons d t ih => simp [ih, add_assoc]

/-- C3: on a non-empty forecast the averaged summary is, field by
field, the exact arithmetic mean of the observations (so in
particular within any tolerance), and a single-element forecast
averages to exactly that element. -/
theorem average_is_arithmetic_mean (l : List DailyForecast) (hne : l ≠ []) :
    (getAverageForecast l).temperatureMax =
      .num ((l.map (fun d => d.temperatureMax)).sum / l.length) ∧
    (getAverageForecast l).temperatureMin =
      .num ((l.map (fun d => d.temperatureMin)).sum / l.length) ∧
    (getAverageForecast l).precipitation =
      .num ((l.map (fun d => d.precipitation)).sum / l.length) ∧
    (getAverageForecast l).windSpeedMax =
      .num ((l.map (fun d => d.windSpeedMax)).sum / l.length) ∧
    (∀ d, l = [d] → getAverageForecast l =
      { temperatureMax := .num d.temperatureMax
        temperatureMin := .num d.temperatureMin
        precipitation := .num d.precipitation
        windSpeedMax := .num d.windSpeedMax }) := by
  have hlen : (l.length : ℚ) ≠ 0 := by
    simpa using fun h => hne (List.length_eq_zero.1 h)
  refine ⟨?_, ?_, ?_, ?_, ?_⟩
  · simp [getAverageForecast, jsDiv, hlen, foldl_add_eq]
  · simp [getAverageForecast, jsDiv, hlen, foldl_add_eq]
  · simp [getAverageForecast, jsDiv, hlen, foldl_add_eq]
  · simp [getAverageForecast, jsDiv, hlen, foldl_add_eq]
  · rintro d rfl
    simp [getAverageForecast, jsDiv]

/-- Witness for C3 at a concrete one-day forecast. -/
theorem average_is_arithmetic_mean_witness :
    getAverageForecast [⟨"2026-02-06", 25, 18, 2, 20⟩] =
      { temperatureMax := .num 25, temperatureMin := .num 18,
        precipitation := .num 2, windSpeedMax := .num 20 } :=
  (average_is_arithmetic_mean [⟨"2026-02-06", 25, 18, 2, 20⟩]
    (by decide)).2.2.2.2 ⟨"2026-02-06", 25, 18, 2, 20⟩ rfl

/-- C1 counterexample: `getAverageForecast` performs no emptiness check,
so on the empty forecast every field is the JS value `0 / 0 = NaN` and
the summary is returned silently — no `InvalidInput` (or any other)
error is raised, contrary to the claim. -/
theorem empty_aggregation_silently_returns_nan :
    getAverageForecast [] =
      { temperatureMax := .nan, temperatureMin := .nan,
        precipitation := .nan, windSpeedMax := .nan } := rfl

/-- C1 amended: on an empty sequence of daily observations the
aggregation does not fail; it silently returns a summary whose four
fields are all NaN. -/
theorem empty_aggregation_nan_summary (l : List DailyForecast)
    (h : l.length = 0) :
    getAverageForecast l =
      { temperatureMax := .nan, temperatureMin := .nan,
        precipitation := .nan, windSpeedMax := .nan } := by
  cases l with
  | nil => rfl
  | cons d t => simp at h

/-- Witness for the amended C1 at the concrete empty list. -/
theorem empty_aggregation_nan_summary_witness :
    ([] : List DailyForecast).length = 0 ∧
    getAverageForecast [] =
      { temperatureMax := .nan, temperatureMin := .nan,
        precipitation := .nan, windSpeedMax := .nan } :=
  ⟨rfl, empty_aggregation_nan_summary [] rfl⟩

/-! ## Coordinate parsing claims -/

/-- C8: for every cityId string, `parseCoordinates` either returns a
numeric pair with latitude in [-90, 90] and longitude in [-180, 180],
or raises `InvalidCityIdError` (modelled as the error carrying the
cityId) — when the string does not split into exactly two parts, a
part does not parse to a number, or a value is out of range.  The core
therefore only ever receives already-validated numeric coordinates. -/
theorem coordinates_validated_or_rejected (cityId : String) :
    (∃ lat lon : ℚ,
      parseCoordinates cityId = .ok { latitude := .num lat, longitude := .num lon } ∧
      -90 ≤ lat ∧ lat ≤ 90 ∧ -180 ≤ lon ∧ lon ≤ 180) ∨
    parseCoordinates cityId = .error cityId := by
  rcases hsplit : jsSplit cityId ':' with _ | ⟨p0, _ | ⟨p1, _ | ⟨p2, rest⟩⟩⟩ <;>
    simp only [parseCoordinates, hsplit]
  · right
    trivial
  · right
    trivial
  · rcases h0 : parseFloat p0 with _ | _ | _ | q <;>
      rcases h1 : parseFloat p1 with _ | _ | _ | r <;>
        simp only [JsNum.isNaN, JsNum.ltB, JsNum.gtB, Bool.or_true, Bool.true_or,
          Bool.or_false, Bool.false_or, ite_true, ite_false] <;>
      first
      | (right; trivial)
      | (right; split_ifs <;> trivial)
      | skip
    by_cases hq : (decide (q < -90) || decide (90 < q)) = true
    · rw [if_pos hq]
      right
      trivial
    · rw [if_neg hq]
      by_cases hr : (decide (r < -180) || decide (180 < r)) = true
      · rw [if_pos hr]
        right
        trivial
      · rw [if_neg hr]
        rw [Bool.or_eq_true, decide_eq_true_eq, decide_eq_true_eq] at hq hr
        push_neg at hq hr
        exact Or.inl ⟨q, r, rfl, hq.1, hq.2, hr.1, hr.2⟩
  · right
    trivial

/-- C9: coordinate parsing accepts some non-well-formed identifiers,
because `parseFloat` reads the longest numeric prefix: the concrete
cityId "45abc:90xyz" is accepted and yields (45, 90).  Rejection
happens only when the split is not exactly two parts, a part has no
numeric prefix at all (its `parseFloat` is NaN), or a parsed value is
out of range. -/
theorem parsefloat_prefix_accepts_malformed_id :
    parseCoordinates "45abc:90xyz" =
      .ok { latitude := .num 45, longitude := .num 90 } ∧
    parseFloat "45abc" = .num 45 ∧
    parseFloat "90xyz" = .num 90 ∧
    (∀ cityId : String, parseCoordinates cityId = .error cityId →
      ((jsSplit cityId ':').length ≠ 2 ∨
       ∃ p0 p1, jsSplit cityId ':' = [p0, p1] ∧
         ((parseFloat p0).isNaN = true ∨ (parseFloat p1).isNaN = true ∨
          ((parseFloat p0).ltB (-90) || (parseFloat p0).gtB 90) = true ∨
          ((parseFloat p1).ltB (-180) || (parseFloat p1).gtB 180) = true))) := by
  have h0 : parseFloat "45abc" = .num 45 := by
    simp [parseFloat, isJsWhitespace, digitsToNat, parseExpPart]
  have h1 : parseFloat "90xyz" = .num 90 := by
    simp [parseFloat, isJsWhitespace, digitsToNat, parseExpPart]
  have hs : jsSplit "45abc:90xyz" ':' = ["45abc", "90xyz"] := rfl
  refine ⟨?_, h0, h1, ?_⟩
  · simp [parseCoordinates, hs, h0, h1, JsNum.isNaN, JsNum.ltB, JsNum.gtB]
    norm_num
  intro cityId herr
  rcases hsplit : jsSplit cityId ':' with _ | ⟨p0, _ | ⟨p1, _ | ⟨p2, rest⟩⟩⟩
  · left
    simp [hsplit]
  · left
    simp [hsplit]
  · right
    refine ⟨p0, p1, rfl, ?_⟩
    simp only [parseCoordinates, hsplit] at herr
    by_cases hn : ((parseFloat p0).isNaN || (parseFloat p1).isNaN) = true
    · rcases Bool.or_eq_true_iff.1 hn with h | h
      · exact Or.inl h
      · exact Or.inr (Or.inl h)
    · rw [if_neg hn] at herr
      by_cases h90 : ((parseFloat p0).ltB (-90) || (parseFloat p0).gtB 90) = true
      · exact Or.inr (Or.inr (Or.inl h90))
      · rw [if_neg h90] at herr
        by_cases h180 : ((parseFloat p1).ltB (-180) || (parseFloat p1).gtB 180) = true
        · exact Or.inr (Or.inr (Or.inr h180))
        · rw [if_neg h180] at herr
          exact absurd herr (by simp)
  · left
    simp [hsplit]

/-- Witness for C9 at the concrete out-of-range cityId "91:0". -/
theorem parsefloat_prefix_accepts_malformed_id_witness :
    ((jsSplit "91:0" ':').length ≠ 2 ∨
     ∃ p0 p1, jsSplit "91:0" ':' = [p0, p1] ∧
       ((parseFloat p0).isNaN = true ∨ (parseFloat p1).isNaN = true ∨
        ((parseFloat p0).ltB (-90) || (parseFloat p0).gtB 90) = true ∨
        ((parseFloat p1).ltB (-180) || (parseFloat p1).gtB 180) = true)) :=
  parsefloat_prefix_accepts_malformed_id.2.2.2 "91:0" (by
    have h0 : parseFloat "91" = .num 91 := by
      simp [parseFloat, isJsWhitespace, digitsToNat, parseExpPart]
    have h1 : parseFloat "0" = .num 0 := by
      simp [parseFloat, isJsWhitespace, digitsToNat, parseExpPart]
    have hs : jsSplit "91:0" ':' = ["91", "0"] := rfl
    simp [parseCoordinates, hs, h0, h1, JsNum.isNaN, JsNum.ltB, JsNum.gtB]
    norm_num)

/-! ## City search claim -/

/-- C10: an empty or whitespace-only query makes `searchCities` raise
`CityNotFoundError` without consulting the geocoding client (the
result is independent of the client there); a non-empty query whose
client result list is empty also raises `CityNotFoundError`; hence a
successful return always carries at least one city. -/
theorem search_cities_guards (client client2 : String → List CitySearchResult)
    (query : String) :
    ((jsTrim query).length = 0 →
      searchCities client query = .error (.cityNotFound "") ∧
      searchCities client query = searchCities client2 query) ∧
    ((jsTrim query).length ≠ 0 → client query = [] →
      searchCities client query = .error (.cityNotFound query)) ∧
    (∀ cities, searchCities client query = .ok cities → cities ≠ []) := by
  refine ⟨?_, ?_, ?_⟩
  · intro h
    constructor <;> simp [searchCities, h]
  · intro h hc
    have hq : ¬(query = "" ∨ (jsTrim query).length = 0) := by
      rintro (rfl | hz)
      · exact h rfl
      · exact h hz
    simp [searchCities, hq, hc]
  · intro cities hok
    by_cases hq : query = "" ∨ (jsTrim query).length = 0
    · simp [searchCities, hq] at hok
    · simp only [searchCities, if_neg hq] at hok
      by_cases hc : (client query).length = 0
      · simp [hc] at hok
      · rw [if_neg hc] at hok
        rcases hok with rfl | h
        · intro hnil
          exact hc (by simpa using congrArg List.length hnil)

/-- Witness for C10 at concrete clients and queries. -/
theorem search_cities_guards_witness :
    (searchCities (fun _ => []) "   " = .error (.cityNotFound "") ∧
      searchCities (fun _ => []) "   " =
        searchCities (fun _ => [⟨7, "London", "GB", 51, 0⟩]) "   ") ∧
    searchCities (fun _ => []) "London" = .error (.cityNotFound "London") ∧
    ([{ id := "7", name := "London", country := "GB",
        latitude := 51, longitude := 0 }] : List City) ≠ [] :=
  ⟨(search_cities_guards (fun _ => []) (fun _ => [⟨7, "London", "GB", 51, 0⟩])
      "   ").1 (by decide),
   (search_cities_guards (fun _ => []) (fun _ => []) "London").2.1
      (by decide) rfl,
   (search_cities_guards (fun _ => [⟨7, "London", "GB", 51, 0⟩])
      (fun _ => []) "London").2.2
      [{ id := "7", name := "London", country := "GB",
         latitude := 51, longitude := 0 }] rfl⟩

end TravelApp
